import Mathlib

/-!
Shallow embedding of the streaming raw-image reader `vtkImageReader2`
(file `IO/Image/vtkImageReader2.cxx`).

Modelling conventions:
- C++ member state is a `ReaderState` record; every setter and algorithm is a
  pure function threading that record.
- `int` / `long` values are modelled as `Int`, `unsigned long` values that stay
  in range as `Int` or `Nat`; the explicit C cast `(int)` and the implicit
  conversion of a signed value to the `unsigned long` return type in
  `GetHeaderSize` are modelled exactly by `castInt32` and `castULong`, since
  the wrap there is observable.  Other implicit widenings never wrap for the
  in-range configurations the claims quantify over and are left mathematical.
- The filesystem is a pure map `FileSystem := String -> Option Int` giving the
  `stat` result (file size) of each path; `none` means the stat call fails.
- `snprintf` pattern formatting is abstracted as an injective encoding of its
  arguments (no claim depends on the formatted text itself).
- File I/O performed by the row-reading loop is reified as a trace of
  `FileOp` events, so that "which files get opened and which offsets get
  sought" is observable.
-/

/-- The six-entry `DataExtent` array: `DataExtent[0..5]` =
`(xMin, xMax, yMin, yMax, zMin, zMax)`. -/
structure Extent where
  xMin : Int
  xMax : Int
  yMin : Int
  yMax : Int
  zMin : Int
  zMax : Int
deriving DecidableEq, Repr

/-- The four-entry `DataIncrements` array of derived byte strides,
`DataIncrements[0..3]`.  Stored as `unsigned long` in the source; modelled as
`Int` (values are nonnegative for valid configurations). -/
structure Increments where
  i0 : Int
  i1 : Int
  i2 : Int
  i3 : Int
deriving DecidableEq, Repr

/-- C array indexing `DataIncrements[k]`, used by the source as
`this->DataIncrements[this->GetFileDimensionality()]`. -/
def Increments.get (d : Increments) (k : Int) : Int :=
  if k = 0 then d.i0 else if k = 1 then d.i1 else if k = 2 then d.i2 else d.i3

/-- Member state of `vtkImageReader2`.  Nullable `char*` fields are
`Option String`; the `vtkStringArray* FileNames` is an `Option (List String)`.
The source field `FilePrefix` is modelled as ` filePrefixOpt`. -/
structure ReaderState where
  fileName : Option String
  filePrefixOpt : Option String
  filePattern : Option String
  fileNames : Option (List String)
  internalFileName : Option String
  dataScalarType : Int
  numberOfScalarComponents : Int
  dataExtent : Extent
  dataIncrements : Increments
  memoryBuffer : Option Nat
  memoryBufferLength : Int
  headerSize : Nat
  manualHeaderSize : Bool
  fileNameSliceOffset : Int
  fileNameSliceSpacing : Int
  swapBytes : Bool
  fileLowerLeft : Bool
  fileDimensionality : Int
  abortExecute : Bool
deriving DecidableEq, Repr

/-- The constructor `vtkImageReader2::vtkImageReader2()`: note that
`FilePattern` starts out non-null, holding the default `"%s.%d"`. -/
def initialReader : ReaderState where
  fileName := none
  filePrefixOpt := none
  filePattern := some "%s.%d"
  fileNames := none
  internalFileName := none
  dataScalarType := 4          -- VTK_SHORT
  numberOfScalarComponents := 1
  dataExtent := ⟨0, 0, 0, 0, 0, 0⟩
  dataIncrements := ⟨1, 1, 1, 1⟩
  memoryBuffer := none
  memoryBufferLength := 0
  headerSize := 0
  manualHeaderSize := false
  fileNameSliceOffset := 0
  fileNameSliceSpacing := 1
  swapBytes := false
  fileLowerLeft := false
  fileDimensionality := 2
  abortExecute := false

/-- Element byte width for each scalar-type tag covered by `vtkTemplateMacro`
(the fixed enumeration of numeric VTK scalar kinds, including the
`VTK_ID_TYPE` / `vtkIdType` case); `none` for any tag the macro does not
cover, which hits the `default:` error branch. -/
def elementSize (scalarType : Int) : Option Nat :=
  if scalarType = 2 then some 1        -- VTK_CHAR
  else if scalarType = 3 then some 1   -- VTK_UNSIGNED_CHAR
  else if scalarType = 4 then some 2   -- VTK_SHORT
  else if scalarType = 5 then some 2   -- VTK_UNSIGNED_SHORT
  else if scalarType = 6 then some 4   -- VTK_INT
  else if scalarType = 7 then some 4   -- VTK_UNSIGNED_INT
  else if scalarType = 8 then some 8   -- VTK_LONG
  else if scalarType = 9 then some 8   -- VTK_UNSIGNED_LONG
  else if scalarType = 10 then some 4  -- VTK_FLOAT
  else if scalarType = 11 then some 8  -- VTK_DOUBLE
  else if scalarType = 12 then some 8  -- VTK_ID_TYPE (vtkIdType; 64-bit ids by default)
  else if scalarType = 15 then some 1  -- VTK_SIGNED_CHAR
  else if scalarType = 16 then some 8  -- VTK_LONG_LONG
  else if scalarType = 17 then some 8  -- VTK_UNSIGNED_LONG_LONG
  else none

/-- `vtkImageReader2::ComputeDataIncrements`: on an unknown scalar type the
`switch` hits `default:`, reports the error and returns before touching
`DataIncrements`; otherwise `fileDataLength` starts at
`elementWidth * NumberOfScalarComponents` and the loop stores it into
`DataIncrements[idx]` then multiplies by the axis size, for idx = 0, 1, 2,
finally storing `DataIncrements[3]`. -/
def computeDataIncrements (st : ReaderState) : ReaderState :=
  match elementSize st.dataScalarType with
  | none => st
  | some w =>
    let l0 : Int := (w : Int) * st.numberOfScalarComponents
    let l1 : Int := l0 * (st.dataExtent.xMax - st.dataExtent.xMin + 1)
    let l2 : Int := l1 * (st.dataExtent.yMax - st.dataExtent.yMin + 1)
    let l3 : Int := l2 * (st.dataExtent.zMax - st.dataExtent.zMin + 1)
    { st with dataIncrements := ⟨l0, l1, l2, l3⟩ }

/-- Scan of the pattern string for a `"%s"` conversion, as in
`ComputeInternalFileName` (adjacent character pairs). -/
def hasPercentS : List Char → Bool
  | '%' :: 's' :: _ => true
  | _ :: rest => hasPercentS rest
  | [] => false

/-- Models `snprintf(buf, size, pattern, prefixArg, slicenum)`: printf
formatting is abstracted as an injective encoding of the three arguments. -/
def formatPattern (pattern pre : String) (slicenum : Int) : String :=
  pattern ++ "|" ++ pre ++ "|" ++ toString slicenum

/-- Models `snprintf(buf, size, pattern, slicenum)` (no `"%s"` in the
pattern). -/
def formatPatternSliceOnly (pattern : String) (slicenum : Int) : String :=
  pattern ++ "|" ++ toString slicenum

/-- `vtkImageReader2::ComputeInternalFileName(int slice)`: clears
`InternalFileName`, errors out if no naming state at all is set, otherwise
resolves with priority `FileNames`, then `FileName`, then the
prefix/pattern pair, then a pattern alone (with `""` for a `"%s"`
placeholder), and leaves `InternalFileName` null when only a prefix is
set without a pattern. -/
def computeInternalFileName (st : ReaderState) (slice : Int) : ReaderState :=
  let st0 := { st with internalFileName := none }
  if st0.fileName = none ∧ st0.filePattern = none ∧ st0.fileNames = none then
    st0
  else
    match st0.fileNames with
    | some l => { st0 with internalFileName := some (l.getD slice.toNat "") }
    | none =>
      match st0.fileName with
      | some n => { st0 with internalFileName := some n }
      | none =>
        let slicenum := slice * st0.fileNameSliceSpacing + st0.fileNameSliceOffset
        match st0.filePrefixOpt, st0.filePattern with
        | some pre, some pat =>
          { st0 with internalFileName := some (formatPattern pat pre slicenum) }
        | none, some pat =>
          if hasPercentS pat.toList then
            { st0 with internalFileName := some (formatPattern pat "" slicenum) }
          else
            { st0 with internalFileName := some (formatPatternSliceOnly pat slicenum) }
        | _, none => st0

/-- `vtkImageReader2::SetFileName`: no-op when the name is unchanged or both
old and new are null; otherwise replaces `FileName` and, when the new name is
non-null, clears `FilePrefix` and `FileNames` (but not `FilePattern`). -/
def setFileName (st : ReaderState) (name : Option String) : ReaderState :=
  if st.fileName ≠ none ∧ name ≠ none ∧ st.fileName = name then st
  else if name = none ∧ st.fileName = none then st
  else
    let st1 := { st with fileName := none }
    match name with
    | some n => { st1 with fileName := some n, filePrefixOpt := none, fileNames := none }
    | none => st1

/-- `vtkImageReader2::SetFileNames`: no-op when the argument is the stored
array (source: pointer equality; modelled as value equality); otherwise
replaces `FileNames` and, when non-null, forces `DataExtent[4] = 0`,
`DataExtent[5] = N - 1` for a non-empty list of N names and clears
`FilePrefix` and `FileName` (but not `FilePattern`). -/
def setFileNames (st : ReaderState) (filenames : Option (List String)) : ReaderState :=
  if filenames = st.fileNames then st
  else
    let st1 := { st with fileNames := none }
    match filenames with
    | some l =>
      let st2 := { st1 with fileNames := some l }
      let st3 :=
        if l.length > 0 then
          { st2 with dataExtent :=
            { st2.dataExtent with zMin := 0, zMax := (l.length : Int) - 1 } }
        else st2
      { st3 with filePrefixOpt := none, fileName := none }
    | none => st1

/-- `vtkImageReader2::SetFilePrefix`: no-op when unchanged or both null;
otherwise replaces `FilePrefix` and, when non-null, clears `FileName` and
`FileNames` (but not `FilePattern`). -/
def setFilePrefixOpt (st : ReaderState) (pre : Option String) : ReaderState :=
  if st.filePrefixOpt ≠ none ∧ pre ≠ none ∧ st.filePrefixOpt = pre then st
  else if pre = none ∧ st.filePrefixOpt = none then st
  else
    let st1 := { st with filePrefixOpt := none }
    match pre with
    | some p => { st1 with filePrefixOpt := some p, fileName := none, fileNames := none }
    | none => st1

/-- `vtkImageReader2::SetFilePattern`: no-op when unchanged or both null;
otherwise replaces `FilePattern` and, when non-null, clears `FileName` and
`FileNames` (but not `FilePrefix`). -/
def setFilePattern (st : ReaderState) (pattern : Option String) : ReaderState :=
  if st.filePattern ≠ none ∧ pattern ≠ none ∧ st.filePattern = pattern then st
  else if pattern = none ∧ st.filePattern = none then st
  else
    let st1 := { st with filePattern := none }
    match pattern with
    | some p => { st1 with filePattern := some p, fileName := none, fileNames := none }
    | none => st1

/-- `vtkImageReader2::SetMemoryBuffer`. -/
def setMemoryBuffer (st : ReaderState) (membuf : Option Nat) : ReaderState :=
  if st.memoryBuffer = membuf then st else { st with memoryBuffer := membuf }

/-- `vtkImageReader2::SetMemoryBufferLength`. -/
def setMemoryBufferLength (st : ReaderState) (buflen : Int) : ReaderState :=
  if st.memoryBufferLength = buflen then st else { st with memoryBufferLength := buflen }

/-- The filesystem visible through `vtksys::SystemTools::Stat`: maps a path to
its file size, or `none` when the stat call fails. -/
def FileSystem : Type := String → Option Int

/-- The C cast `(int)` applied to a wider signed value: wrap into
`[-2^31, 2^31)`. -/
def castInt32 (x : Int) : Int := (x + 2 ^ 31) % 2 ^ 32 - 2 ^ 31

/-- Conversion of a signed value to the `unsigned long` (64-bit) return
type. -/
def castULong (x : Int) : Nat := (x % 2 ^ 64).toNat

/-- The path `GetHeaderSize` probes: `ComputeDataIncrements()` followed by
`ComputeInternalFileName(idx)` leaves this in `InternalFileName`. -/
def headerProbePath (st : ReaderState) (idx : Int) : String :=
  ((computeInternalFileName (computeDataIncrements st) idx).internalFileName).getD ""

/-- `vtkImageReader2::GetHeaderSize(unsigned long idx)`: errors (returning 0)
when both `FileName` and `FilePattern` are null; in non-manual mode recomputes
the increments, resolves the slice path, and when the stat succeeds returns
`(int)(st_size - (long)DataIncrements[FileDimensionality])` converted to
`unsigned long`; in manual mode, or when the stat fails, returns the stored
`HeaderSize`. -/
def getHeaderSizeIdx (st : ReaderState) (fs : FileSystem) (idx : Int) : Nat :=
  if st.fileName = none ∧ st.filePattern = none then 0
  else if st.manualHeaderSize = false then
    let st1 := computeDataIncrements st
    let st2 := computeInternalFileName st1 idx
    match fs (st2.internalFileName.getD "") with
    | some sz => castULong (castInt32 (sz - st1.dataIncrements.get st.fileDimensionality))
    | none => st.headerSize
  else st.headerSize

/-- The expected payload subtracted by the auto header-size probe:
`DataIncrements[FileDimensionality]` after `ComputeDataIncrements()`. -/
def autoPayload (st : ReaderState) : Int :=
  (computeDataIncrements st).dataIncrements.get st.fileDimensionality

/-- `vtkImageReader2::SeekFile(int i, int j, int k)`: the byte offset handed
to `seekg` as a `long`.  `streamStart` accumulates `(i - DataExtent[0]) *
DataIncrements[0]`, the row term for the configured orientation, for file
dimensionality at least three the slice term, and `GetHeaderSize(k)`.
The `unsigned long` accumulation followed by the final `(long)` cast agrees
with signed arithmetic whenever the magnitude stays below `2^63`. -/
def seekFile (st : ReaderState) (fs : FileSystem) (i j k : Int) : Int :=
  let s0 : Int := (i - st.dataExtent.xMin) * st.dataIncrements.i0
  let s1 : Int :=
    if st.fileLowerLeft then
      s0 + (j - st.dataExtent.yMin) * st.dataIncrements.i1
    else
      s0 + (st.dataExtent.yMax - st.dataExtent.yMin - j) * st.dataIncrements.i1
  let s2 : Int :=
    if 3 ≤ st.fileDimensionality then
      s1 + (k - st.dataExtent.zMin) * st.dataIncrements.i2
    else s1
  s2 + (getHeaderSizeIdx st fs k : Int)

/-- Seek-offset formula as the specification states it: `(i - xMin) *
increments[0]`, plus `(j - yMin) * increments[1]` for `OriginLowerLeft` or
`(yMax - yMin - j) * increments[1]` for `OriginUpperLeft`, plus
`(k - zMin) * increments[2]` only when the file dimensionality is exactly 3,
plus the header size resolved for slice `k`. -/
def specSeekOffset (st : ReaderState) (fs : FileSystem) (i j k : Int) : Int :=
  (i - st.dataExtent.xMin) * st.dataIncrements.i0
    + (if st.fileLowerLeft then (j - st.dataExtent.yMin) * st.dataIncrements.i1
        else (st.dataExtent.yMax - st.dataExtent.yMin - j) * st.dataIncrements.i1)
    + (if st.fileDimensionality = 3 then (k - st.dataExtent.zMin) * st.dataIncrements.i2
        else 0)
    + (getHeaderSizeIdx st fs k : Int)

/-- The inclusive integer range `[a, b]` traversed by the reader's `for`
loops. -/
def intRange (a b : Int) : List Int :=
  (List.range (b + 1 - a).toNat).map fun n => a + n

/-- `vtkImageReader2::OpenFile` succeeds exactly when some naming state is
set, the stat of `InternalFileName` succeeds and the stream opens (the
latter modelled as following from a successful stat). -/
def openFileOk (st : ReaderState) (fs : FileSystem) : Bool :=
  ¬(st.fileName = none ∧ st.filePattern = none ∧ st.fileNames = none) ∧
    fs (st.internalFileName.getD "") ≠ none

/-- Observable I/O events of the row-reading loop `vtkImageReader2Update`. -/
inductive FileOp where
  | openOp (path : String) (ok : Bool)
  | seekOp (off : Int)
  | readRow (bytes : Int)
  | swapRow (bytes : Int)
deriving DecidableEq, Repr

/-- One z-iteration's inner row loop: for each `j` in
`[DataExtent[2], DataExtent[3]]` (skipped entirely when `AbortExecute` is
raised) seek via `SeekFile(xMin, j, k)`, read `streamRead` bytes, and swap
the row in place when `SwapBytes` is on and the element is wider than one
byte. -/
def rowOps (st : ReaderState) (fs : FileSystem) (streamRead : Int) (elemSz : Nat)
    (k : Int) : List FileOp :=
  if st.abortExecute then []
  else
    (intRange st.dataExtent.yMin st.dataExtent.yMax).flatMap fun j =>
      FileOp.seekOp (seekFile st fs st.dataExtent.xMin j k) ::
        FileOp.readRow streamRead ::
          (if st.swapBytes ∧ 1 < elemSz then [FileOp.swapRow streamRead] else [])

/-- The outer z loop of `vtkImageReader2Update`: in the two-dimensional case
each slice's file is resolved and opened before its rows, and an open
failure aborts the whole read. -/
def updateSlices (st : ReaderState) (fs : FileSystem) (streamRead : Int)
    (elemSz : Nat) : List Int → List FileOp
  | [] => []
  | k :: rest =>
    if st.fileDimensionality = 2 then
      let st1 := computeInternalFileName st k
      let ok := openFileOk st1 fs
      FileOp.openOp (st1.internalFileName.getD "") ok ::
        (if ok then
          rowOps st1 fs streamRead elemSz k ++ updateSlices st1 fs streamRead elemSz rest
        else [])
    else
      rowOps st fs streamRead elemSz k ++ updateSlices st fs streamRead elemSz rest

/-- The I/O trace of `vtkImageReader2Update(self, data, outPtr)`: row byte
count `streamRead = pixelRead * nComponents * sizeof(OT)`; in the
three-dimensional case the single file is resolved at slice 0 and opened once
(an open failure aborting the read); then the z loop runs over
`[DataExtent[4], DataExtent[5]]`.  The output data's extent and component
count are those of the reader (whole-extent update). -/
def vtkImageReader2UpdateOps (st : ReaderState) (fs : FileSystem) (elemSz : Nat) :
    List FileOp :=
  let pixelRead : Int := st.dataExtent.xMax - st.dataExtent.xMin + 1
  let streamRead : Int := pixelRead * st.numberOfScalarComponents * (elemSz : Int)
  let zs := intRange st.dataExtent.zMin st.dataExtent.zMax
  if st.fileDimensionality = 3 then
    let st1 := computeInternalFileName st 0
    let ok := openFileOk st1 fs
    FileOp.openOp (st1.internalFileName.getD "") ok ::
      (if ok then updateSlices st1 fs streamRead elemSz zs else [])
  else
    updateSlices st fs streamRead elemSz zs

/-- Outcome of `vtkImageReader2::ExecuteDataWithInformation`. -/
inductive ReadResult where
  | errorNoIdentity
  | errorUnknownScalar
  | done (ops : List FileOp)
deriving DecidableEq, Repr

/-- `vtkImageReader2::ExecuteDataWithInformation`: errors out when both
`FileName` and `FilePattern` are null (`FileNames` is not consulted by this
check), recomputes the increments, then dispatches `vtkImageReader2Update`
on the scalar type, erroring on an unknown type. -/
def executeDataWithInformation (st : ReaderState) (fs : FileSystem) : ReadResult :=
  if st.fileName = none ∧ st.filePattern = none then ReadResult.errorNoIdentity
  else
    let st1 := computeDataIncrements st
    match elementSize st1.dataScalarType with
    | some w => ReadResult.done (vtkImageReader2UpdateOps st1 fs w)
    | none => ReadResult.errorUnknownScalar

/-- One call to a naming-strategy setter. -/
inductive SetterOp where
  | name (v : Option String)
  | names (v : Option (List String))
  | pre (v : Option String)
  | pat (v : Option String)

/-- Apply one naming-strategy setter call. -/
def applyOp (st : ReaderState) : SetterOp → ReaderState
  | SetterOp.name v => setFileName st v
  | SetterOp.names v => setFileNames st v
  | SetterOp.pre v => setFilePrefixOpt st v
  | SetterOp.pat v => setFilePattern st v

/-- Apply a sequence of naming-strategy setter calls, first call first. -/
def applyOps (st : ReaderState) (ops : List SetterOp) : ReaderState :=
  ops.foldl applyOp st

/-- How many of the three naming strategies are observed as set, reading the
pattern strategy as "a prefix or a pattern is non-null" (a pattern alone is a
complete identity for `ComputeInternalFileName` and `OpenFile`). -/
def strategyCount (st : ReaderState) : Nat :=
  (if st.fileName ≠ none then 1 else 0) + (if st.fileNames ≠ none then 1 else 0) +
    (if st.filePrefixOpt ≠ none ∨ st.filePattern ≠ none then 1 else 0)

/-- How many of the fields `FileName`, `FileNames`, `FilePrefix` are non-null
(the fields the setters do clear mutually). -/
def coreStrategyCount (st : ReaderState) : Nat :=
  (if st.fileName ≠ none then 1 else 0) + (if st.fileNames ≠ none then 1 else 0) +
    (if st.filePrefixOpt ≠ none then 1 else 0)

/-- A state with only the memory-buffer configuration changed. -/
def bufSet (st : ReaderState) (b : Option Nat) (l : Int) : ReaderState :=
  { st with memoryBuffer := b, memoryBufferLength := l }

/-- A state with only the row orientation changed. -/
def orientSet (st : ReaderState) (o : Bool) : ReaderState :=
  { st with fileLowerLeft := o }

/-- A filesystem on which every stat call fails. -/
def statFailFS : FileSystem := fun _ => none

/-- A filesystem holding one file `"img.raw"` of size 10. -/
def statOkFS : FileSystem := fun p => if p = "img.raw" then some 10 else none

/-- A filesystem holding one file `"img.raw"` of size 0. -/
def statEmptyFS : FileSystem := fun p => if p = "img.raw" then some 0 else none

/-- An auto-header-size configuration (a single file name, manual header size
never set, stored `HeaderSize` still 0). -/
def autoProbeState : ReaderState :=
  { initialReader with fileName := some "img.raw" }

/-- An auto-header-size configuration whose stored `HeaderSize` field holds a
previously stored value 7. -/
def autoProbeState7 : ReaderState :=
  { initialReader with fileName := some "img.raw", headerSize := 7 }

/-- A configuration whose naming strategy is an explicit file-name list alone
(`FilePattern` explicitly cleared). -/
def listOnlyState : ReaderState :=
  { initialReader with filePattern := none, fileNames := some ["a.raw"] }

/-- A read configuration with an in-memory buffer override set: a single
file name, manual header size 5, default two-dimensional layout. -/
def bufferedReadState : ReaderState :=
  { initialReader with
    fileName := some "img.raw"
    manualHeaderSize := true
    headerSize := 5
    memoryBuffer := some 1
    memoryBufferLength := 100 }

/-- An upper-left-origin configuration whose extent has `yMin = 1`,
`yMax = 2`, with manual header size 0 and strides for one-component
16-bit elements. -/
def mirrorStateUL : ReaderState :=
  { initialReader with
    fileName := some "img.raw"
    manualHeaderSize := true
    dataExtent := ⟨0, 0, 1, 2, 0, 0⟩
    dataIncrements := ⟨2, 2, 4, 4⟩ }

/-- The same configuration as `mirrorStateUL` with lower-left origin. -/
def mirrorStateLL : ReaderState :=
  { mirrorStateUL with fileLowerLeft := true }

/-- A three-dimensional configuration used to instantiate the seek-offset
claims: extent `[0,1] x [0,2] x [0,1]`, strides for one-component 16-bit
elements, manual header size 3. -/
def seekSampleState : ReaderState :=
  { initialReader with
    fileName := some "img.raw"
    manualHeaderSize := true
    headerSize := 3
    fileDimensionality := 3
    dataExtent := ⟨0, 1, 0, 2, 0, 1⟩
    dataIncrements := ⟨2, 4, 12, 24⟩ }

/-! ## Helper lemmas -/

theorem castInt32_id (x : Int) (h1 : -(2 ^ 31) ≤ x) (h2 : x < 2 ^ 31) :
    castInt32 x = x := by
  unfold castInt32
  rw [Int.emod_eq_of_lt (by omega) (by omega)]
  omega

theorem castULong_id (x : Int) (h1 : 0 ≤ x) (h2 : x < 2 ^ 64) :
    castULong x = x.toNat := by
  unfold castULong
  rw [Int.emod_eq_of_lt h1 h2]

theorem computeDataIncrements_bufSet (st : ReaderState) (b : Option Nat) (l : Int) :
    computeDataIncrements (bufSet st b l) = bufSet (computeDataIncrements st) b l := by
  unfold computeDataIncrements bufSet
  rcases h : elementSize st.dataScalarType with _ | w <;> simp [h]

theorem computeInternalFileName_bufSet (st : ReaderState) (b : Option Nat) (l : Int)
    (k : Int) :
    computeInternalFileName (bufSet st b l) k = bufSet (computeInternalFileName st k) b l := by
  rcases st with ⟨fn, fpre, fpat, fns, ifn, dst, nc, de, di, mb, mbl, hs, mhs, fso, fss, sb, fll, fd, ab⟩
  rcases fns with _ | ls <;> rcases fn with _ | n <;> rcases fpre with _ | p <;>
    rcases fpat with _ | q <;>
    simp [computeInternalFileName, bufSet] <;>
    split <;> rfl

theorem getHeaderSizeIdx_bufSet (st : ReaderState) (fs : FileSystem) (b : Option Nat)
    (l : Int) (k : Int) :
    getHeaderSizeIdx (bufSet st b l) fs k = getHeaderSizeIdx st fs k := by
  simp only [getHeaderSizeIdx]
  rw [computeDataIncrements_bufSet, computeInternalFileName_bufSet]
  rfl

theorem openFileOk_bufSet (st : ReaderState) (fs : FileSystem) (b : Option Nat) (l : Int) :
    openFileOk (bufSet st b l) fs = openFileOk st fs := rfl

theorem seekFile_bufSet (st : ReaderState) (fs : FileSystem) (b : Option Nat) (l : Int)
    (i j k : Int) :
    seekFile (bufSet st b l) fs i j k = seekFile st fs i j k := by
  simp only [seekFile, getHeaderSizeIdx_bufSet]
  rfl

theorem rowOps_bufSet (st : ReaderState) (fs : FileSystem) (b : Option Nat) (l : Int)
    (streamRead : Int) (elemSz : Nat) (k : Int) :
    rowOps (bufSet st b l) fs streamRead elemSz k = rowOps st fs streamRead elemSz k := by
  simp only [rowOps, seekFile_bufSet]
  rfl

theorem updateSlices_bufSet (fs : FileSystem) (b : Option Nat) (l : Int)
    (streamRead : Int) (elemSz : Nat) (ks : List Int) :
    ∀ st : ReaderState,
      updateSlices (bufSet st b l) fs streamRead elemSz ks =
        updateSlices st fs streamRead elemSz ks := by
  induction ks with
  | nil => intro st; rfl
  | cons k rest ih =>
    intro st
    simp only [updateSlices, computeInternalFileName_bufSet, openFileOk_bufSet,
      rowOps_bufSet, ih]
    rfl

theorem vtkImageReader2UpdateOps_bufSet (st : ReaderState) (fs : FileSystem)
    (b : Option Nat) (l : Int) (elemSz : Nat) :
    vtkImageReader2UpdateOps (bufSet st b l) fs elemSz =
      vtkImageReader2UpdateOps st fs elemSz := by
  simp only [vtkImageReader2UpdateOps, computeInternalFileName_bufSet, openFileOk_bufSet,
    updateSlices_bufSet]
  rfl

theorem executeDataWithInformation_bufSet (st : ReaderState) (fs : FileSystem)
    (b : Option Nat) (l : Int) :
    executeDataWithInformation (bufSet st b l) fs = executeDataWithInformation st fs := by
  simp only [executeDataWithInformation, computeDataIncrements_bufSet,
    vtkImageReader2UpdateOps_bufSet]
  rfl

theorem setMemoryBuffer_eq (st : ReaderState) (b : Option Nat) :
    setMemoryBuffer st b = { st with memoryBuffer := b } := by
  unfold setMemoryBuffer
  split
  case isTrue h => rw [← h]
  case isFalse h => rfl

theorem setMemoryBufferLength_eq (st : ReaderState) (l : Int) :
    setMemoryBufferLength st l = { st with memoryBufferLength := l } := by
  unfold setMemoryBufferLength
  split
  case isTrue h => rw [← h]
  case isFalse h => rfl

theorem computeDataIncrements_orientSet (st : ReaderState) (o : Bool) :
    computeDataIncrements (orientSet st o) = orientSet (computeDataIncrements st) o := by
  unfold computeDataIncrements orientSet
  rcases h : elementSize st.dataScalarType with _ | w <;> simp [h]

theorem computeInternalFileName_orientSet (st : ReaderState) (o : Bool) (k : Int) :
    computeInternalFileName (orientSet st o) k = orientSet (computeInternalFileName st k) o := by
  rcases st with ⟨fn, fpre, fpat, fns, ifn, dst, nc, de, di, mb, mbl, hs, mhs, fso, fss, sb, fll, fd, ab⟩
  rcases fns with _ | ls <;> rcases fn with _ | n <;> rcases fpre with _ | p <;>
    rcases fpat with _ | q <;>
    simp [computeInternalFileName, orientSet] <;>
    split <;> rfl

theorem getHeaderSizeIdx_orientSet (st : ReaderState) (fs : FileSystem) (o : Bool)
    (k : Int) :
    getHeaderSizeIdx (orientSet st o) fs k = getHeaderSizeIdx st fs k := by
  simp only [getHeaderSizeIdx]
  rw [computeDataIncrements_orientSet, computeInternalFileName_orientSet]
  rfl

theorem coreStrategyCount_applyOp (st : ReaderState) (op : SetterOp)
    (h : coreStrategyCount st ≤ 1) : coreStrategyCount (applyOp st op) ≤ 1 := by
  cases op with
  | name v =>
    simp only [applyOp, setFileName]
    split
    · exact h
    split
    · exact h
    rcases v with _ | n <;>
      simp only [coreStrategyCount] at h ⊢ <;>
      simp <;> split_ifs at h ⊢ <;> omega
  | names v =>
    simp only [applyOp, setFileNames]
    split
    · exact h
    rcases v with _ | ls
    · simp only [coreStrategyCount] at h ⊢
      simp <;> split_ifs at h ⊢ <;> omega
    · dsimp only
      split <;> simp [coreStrategyCount]
  | pre v =>
    simp only [applyOp, setFilePrefixOpt]
    split
    · exact h
    split
    · exact h
    rcases v with _ | p <;>
      simp only [coreStrategyCount] at h ⊢ <;>
      simp <;> split_ifs at h ⊢ <;> omega
  | pat v =>
    simp only [applyOp, setFilePattern]
    split
    · exact h
    split
    · exact h
    rcases v with _ | q <;>
      simp only [coreStrategyCount] at h ⊢ <;>
      simp <;> split_ifs at h ⊢ <;> omega

theorem coreStrategyCount_applyOps (ops : List SetterOp) :
    ∀ st : ReaderState, coreStrategyCount st ≤ 1 →
      coreStrategyCount (applyOps st ops) ≤ 1 := by
  induction ops with
  | nil => intro st h; exact h
  | cons op rest ih =>
    intro st h
    exact ih (applyOp st op) (coreStrategyCount_applyOp st op h)

/-! ## Claim theorems -/

/-- C2 (counterexample): on a fresh reader, `SetFileName("a")` leaves TWO
naming strategies observed as set: the single file name, and the pattern
strategy (the constructor's default `FilePattern` `"%s.%d"` is never cleared
by `SetFileName`), refuting "after any sequence of strategy setters at most
one of the three strategies is observed as set". -/
theorem setFileName_leaves_two_strategies_cex :
    strategyCount (setFileName initialReader (some "a")) = 2 ∧
      (setFileName initialReader (some "a")).fileName = some "a" ∧
      (setFileName initialReader (some "a")).filePattern = some "%s.%d" := by
  refine ⟨?_, rfl, rfl⟩
  decide

/-- C2 (amended): each strategy setter with a non-null argument clears the
other strategies' `FileName` / `FilePrefix` / `FileNames` fields but never
`FilePattern`; consequently, after any sequence of naming-strategy setter
calls on a fresh reader, at most one of `FileName`, `FileNames`, `FilePrefix`
is non-null (while `FilePattern` may additionally be non-null, holding its
constructor default). -/
theorem setters_keep_core_strategies_exclusive (ops : List SetterOp) :
    coreStrategyCount (applyOps initialReader ops) ≤ 1 :=
  coreStrategyCount_applyOps ops initialReader (by decide)

/-- C8: for a supported scalar type and a valid extent, the recomputed
increments satisfy `increments[0] = elementByteWidth * components` and
`increments[k] = increments[k-1] * axisSize(k-1)` for k in {1, 2, 3}. -/
theorem computeDataIncrements_recurrence (st : ReaderState) (w : Nat)
    (hw : elementSize st.dataScalarType = some w)
    (hc : 0 < st.numberOfScalarComponents)
    (hx : st.dataExtent.xMin ≤ st.dataExtent.xMax)
    (hy : st.dataExtent.yMin ≤ st.dataExtent.yMax)
    (hz : st.dataExtent.zMin ≤ st.dataExtent.zMax) :
    (computeDataIncrements st).dataIncrements.i0 = (w : Int) * st.numberOfScalarComponents ∧
    (computeDataIncrements st).dataIncrements.i1 =
      (computeDataIncrements st).dataIncrements.i0 *
        (st.dataExtent.xMax - st.dataExtent.xMin + 1) ∧
    (computeDataIncrements st).dataIncrements.i2 =
      (computeDataIncrements st).dataIncrements.i1 *
        (st.dataExtent.yMax - st.dataExtent.yMin + 1) ∧
    (computeDataIncrements st).dataIncrements.i3 =
      (computeDataIncrements st).dataIncrements.i2 *
        (st.dataExtent.zMax - st.dataExtent.zMin + 1) := by
  simp only [computeDataIncrements, hw]
  exact ⟨trivial, trivial, trivial, trivial⟩

/-- C8 (witness): the recurrence instantiated on the constructor state
(16-bit elements, one component, degenerate all-zero extent). -/
theorem computeDataIncrements_recurrence_witness :
    elementSize initialReader.dataScalarType = some 2 ∧
      (computeDataIncrements initialReader).dataIncrements.i0 =
        (2 : Int) * initialReader.numberOfScalarComponents ∧
      (computeDataIncrements initialReader).dataIncrements.i1 =
        (computeDataIncrements initialReader).dataIncrements.i0 *
          (initialReader.dataExtent.xMax - initialReader.dataExtent.xMin + 1) ∧
      (computeDataIncrements initialReader).dataIncrements.i2 =
        (computeDataIncrements initialReader).dataIncrements.i1 *
          (initialReader.dataExtent.yMax - initialReader.dataExtent.yMin + 1) ∧
      (computeDataIncrements initialReader).dataIncrements.i3 =
        (computeDataIncrements initialReader).dataIncrements.i2 *
          (initialReader.dataExtent.zMax - initialReader.dataExtent.zMin + 1) :=
  ⟨by decide,
    computeDataIncrements_recurrence initialReader 2 (by decide) (by decide)
      (by decide) (by decide) (by decide)⟩

/-- C10: recomputing the increments with a scalar type outside the supported
enumeration returns with the whole state, in particular all four stored
increments, unchanged. -/
theorem computeDataIncrements_unknown_preserves (st : ReaderState)
    (h : elementSize st.dataScalarType = none) :
    (computeDataIncrements st).dataIncrements = st.dataIncrements := by
  simp only [computeDataIncrements, h]

/-- C10 (witness): scalar type 99 is unsupported and preserves the stored
increments of the constructor state. -/
theorem computeDataIncrements_unknown_preserves_witness :
    elementSize ({ initialReader with dataScalarType := 99 }).dataScalarType = none ∧
      (computeDataIncrements { initialReader with dataScalarType := 99 }).dataIncrements =
        ({ initialReader with dataScalarType := 99 }).dataIncrements :=
  ⟨by decide, computeDataIncrements_unknown_preserves _ (by decide)⟩

/-- C9: setting an explicit file-name list of N >= 1 paths (a list actually
being installed, i.e. not the early-return case where the argument is the
already-stored array) forces `DataExtent[4] = 0` and `DataExtent[5] = N - 1`
while leaving the X and Y bounds unchanged; setting an empty list leaves the
extent entirely untouched. -/
theorem setFileNames_forces_z_extent (st : ReaderState) (l : List String)
    (hne : l ≠ []) (hdiff : some l ≠ st.fileNames) :
    (setFileNames st (some l)).dataExtent.zMin = 0 ∧
    (setFileNames st (some l)).dataExtent.zMax = (l.length : Int) - 1 ∧
    (setFileNames st (some l)).dataExtent.xMin = st.dataExtent.xMin ∧
    (setFileNames st (some l)).dataExtent.xMax = st.dataExtent.xMax ∧
    (setFileNames st (some l)).dataExtent.yMin = st.dataExtent.yMin ∧
    (setFileNames st (some l)).dataExtent.yMax = st.dataExtent.yMax ∧
    (setFileNames st (some ([] : List String))).dataExtent = st.dataExtent := by
  have hlen : 0 < l.length := List.length_pos.mpr hne
  refine ⟨?_, ?_, ?_, ?_, ?_, ?_, ?_⟩
  · simp only [setFileNames, if_neg hdiff]
    rw [if_pos hlen]
  · simp only [setFileNames, if_neg hdiff]
    rw [if_pos hlen]
  · simp only [setFileNames, if_neg hdiff]
    rw [if_pos hlen]
  · simp only [setFileNames, if_neg hdiff]
    rw [if_pos hlen]
  · simp only [setFileNames, if_neg hdiff]
    rw [if_pos hlen]
  · simp only [setFileNames, if_neg hdiff]
    rw [if_pos hlen]
  · simp only [setFileNames]
    split
    · rfl
    · rw [if_neg (by simp)]

/-- C9 (witness): installing a three-name list on the constructor state. -/
theorem setFileNames_forces_z_extent_witness :
    (["a", "b", "c"] : List String) ≠ [] ∧
      some (["a", "b", "c"] : List String) ≠ initialReader.fileNames ∧
      (setFileNames initialReader (some ["a", "b", "c"])).dataExtent.zMin = 0 ∧
      (setFileNames initialReader (some ["a", "b", "c"])).dataExtent.zMax = 2 :=
  ⟨by decide, by decide,
    (setFileNames_forces_z_extent initialReader ["a", "b", "c"] (by decide) (by decide)).1,
    (setFileNames_forces_z_extent initialReader ["a", "b", "c"] (by decide) (by decide)).2.1⟩

/-- C1 (counterexample): with header size in Auto mode (manual flag never
set) and a filesystem on which every stat fails, `GetHeaderSize` does not
fail: it silently returns the stored `HeaderSize` field — 7 when 7 was
stored, 0 on a fresh configuration — refuting "the probe failure is never
silently replaced by a zero (or previously stored) header size". -/
theorem headerSize_probe_failure_cex :
    autoProbeState7.manualHeaderSize = false ∧
      getHeaderSizeIdx autoProbeState7 statFailFS 0 = 7 ∧
      getHeaderSizeIdx autoProbeState statFailFS 0 = 0 := by
  decide

/-- C1 (amended): in Auto mode (manual flag unset), when the stat probe
fails on every path, `GetHeaderSize` returns the stored `HeaderSize` field
(zero unless a value was previously stored); no failure outcome exists and
the read continues with that value. -/
theorem getHeaderSize_statFailure_returns_stored (st : ReaderState) (fs : FileSystem)
    (idx : Int) (hid : ¬(st.fileName = none ∧ st.filePattern = none))
    (hman : st.manualHeaderSize = false) (hfail : ∀ p, fs p = none) :
    getHeaderSizeIdx st fs idx = st.headerSize := by
  simp only [getHeaderSizeIdx]
  rw [if_neg hid, if_pos hman, hfail]

/-- C1 (witness): the amended statement instantiated on the Auto-mode state
with stored header size 7 and the all-failing filesystem. -/
theorem getHeaderSize_statFailure_returns_stored_witness :
    ¬(autoProbeState7.fileName = none ∧ autoProbeState7.filePattern = none) ∧
      autoProbeState7.manualHeaderSize = false ∧
      getHeaderSizeIdx autoProbeState7 statFailFS 0 = autoProbeState7.headerSize :=
  ⟨by decide, rfl,
    getHeaderSize_statFailure_returns_stored autoProbeState7 statFailFS 0 (by decide) rfl
      (fun _ => rfl)⟩

/-- C3 (counterexample): Auto-mode header-size resolution of an accessible
file of size 0 with expected payload 2 does not return
`max(0, fileSize - expectedPayloadSize) = 0`: the unclamped negative
difference is cast through `int` and returned as `unsigned long`, giving
`2^64 - 2`. -/
theorem autoHeaderSize_no_clamp_cex :
    autoPayload autoProbeState = 2 ∧
      (max 0 ((0 : Int) - autoPayload autoProbeState)).toNat = 0 ∧
      getHeaderSizeIdx autoProbeState statEmptyFS 0 = 2 ^ 64 - 2 ∧
      getHeaderSizeIdx autoProbeState statEmptyFS 0 ≠
        (max 0 ((0 : Int) - autoPayload autoProbeState)).toNat := by
  refine ⟨by decide, by decide, by decide, ?_⟩
  decide

/-- C3 (amended): in Auto mode, when the stat succeeds with size `sz` at
least the expected payload `DataIncrements[FileDimensionality]` (and the
difference fits in a 32-bit int), the resolved header size equals
`sz - payload`; no clamping at zero is applied for smaller files (see the
counterexample). -/
theorem getHeaderSize_auto_diff (st : ReaderState) (fs : FileSystem) (idx : Int)
    (sz : Int) (hid : ¬(st.fileName = none ∧ st.filePattern = none))
    (hman : st.manualHeaderSize = false)
    (hstat : fs (headerProbePath st idx) = some sz)
    (hge : autoPayload st ≤ sz) (hlt : sz - autoPayload st < 2 ^ 31) :
    getHeaderSizeIdx st fs idx = (sz - autoPayload st).toNat := by
  simp only [headerProbePath] at hstat
  simp only [getHeaderSizeIdx]
  rw [if_neg hid, if_pos hman, hstat]
  show castULong (castInt32 (sz - autoPayload st)) = (sz - autoPayload st).toNat
  rw [castInt32_id _ (by omega) (by omega), castULong_id _ (by omega) (by omega)]

/-- C3 (witness): the amended statement instantiated on the Auto-mode state
and a file of size 10 with expected payload 2, giving header size 8. -/
theorem getHeaderSize_auto_diff_witness :
    statOkFS (headerProbePath autoProbeState 0) = some 10 ∧
      autoPayload autoProbeState ≤ 10 ∧
      getHeaderSizeIdx autoProbeState statOkFS 0 = ((10 : Int) - autoPayload autoProbeState).toNat ∧
      getHeaderSizeIdx autoProbeState statOkFS 0 = 8 :=
  ⟨by decide, by decide,
    getHeaderSize_auto_diff autoProbeState statOkFS 0 10 (by decide) rfl (by decide)
      (by decide) (by decide),
    by decide⟩

/-- C6: for in-extent coordinates and a two- or three-dimensional file
layout, the seek offset computed by `SeekFile` equals the specification's
formula: `(i - xMin) * increments[0]`, plus `(j - yMin) * increments[1]`
for lower-left origin or `(yMax - yMin - j) * increments[1]` for upper-left
origin, plus `(k - zMin) * increments[2]` only for three-dimensional files,
plus the header size resolved for slice `k`. -/
theorem seekFile_matches_specSeekOffset (st : ReaderState) (fs : FileSystem)
    (i j k : Int)
    (hdim : st.fileDimensionality = 2 ∨ st.fileDimensionality = 3)
    (hi : st.dataExtent.xMin ≤ i ∧ i ≤ st.dataExtent.xMax)
    (hj : st.dataExtent.yMin ≤ j ∧ j ≤ st.dataExtent.yMax)
    (hk : st.dataExtent.zMin ≤ k ∧ k ≤ st.dataExtent.zMax) :
    seekFile st fs i j k = specSeekOffset st fs i j k := by
  unfold seekFile specSeekOffset
  rcases hdim with h | h <;> rw [h] <;> norm_num <;> split_ifs <;> ring

/-- C6 (witness): the formula instantiated at the in-extent coordinate
(1, 1, 1) of the three-dimensional sample configuration. -/
theorem seekFile_matches_specSeekOffset_witness :
    (seekSampleState.fileDimensionality = 2 ∨ seekSampleState.fileDimensionality = 3) ∧
      seekFile seekSampleState statFailFS 1 1 1 =
        specSeekOffset seekSampleState statFailFS 1 1 1 ∧
      seekFile seekSampleState statFailFS 1 1 1 = 21 :=
  ⟨Or.inr rfl,
    seekFile_matches_specSeekOffset seekSampleState statFailFS 1 1 1 (Or.inr rfl)
      ⟨by decide, by decide⟩ ⟨by decide, by decide⟩ ⟨by decide, by decide⟩,
    by decide⟩

/-- C7 (counterexample): for the extent `yMin = 1, yMax = 2` with row stride
2, the spec's mirror instance fails: the upper-left-origin offset at
`j = yMin` is 0 while the lower-left-origin offset at `j = yMax` is 2
(identical header and Z terms), so the two orientations are NOT mirror
images across the extent's Y midpoint when `yMin` is nonzero. -/
theorem seek_mirror_cex :
    seekFile mirrorStateUL statFailFS 0 1 0 = 0 ∧
      seekFile mirrorStateLL statFailFS 0 2 0 = 2 ∧
      seekFile mirrorStateUL statFailFS 0 1 0 ≠ seekFile mirrorStateLL statFailFS 0 2 0 := by
  decide

/-- C7 (amended): the two orientations are related by the reflection
`j` maps to `yMax - j` (not by the reflection across the midpoint of
`[yMin, yMax]`, which they match only when `yMin = 0`): for every
configuration and every coordinate, the upper-left-origin offset at
`(i, j, k)` equals the lower-left-origin offset at `(i, yMax - j, k)`,
with identical header and Z terms. -/
theorem seekFile_orientation_mirror (st : ReaderState) (fs : FileSystem) (i j k : Int) :
    seekFile (orientSet st false) fs i j k =
      seekFile (orientSet st true) fs i (st.dataExtent.yMax - j) k := by
  unfold seekFile
  rw [getHeaderSizeIdx_orientSet, getHeaderSizeIdx_orientSet]
  simp only [orientSet]
  norm_num
  split_ifs <;> ring

/-- C4 (code bug evaluation): a configuration whose only naming strategy is
an explicit file-name list (the default pattern cleared) resolves fine in
`ComputeInternalFileName`, yet `ExecuteDataWithInformation` rejects it
before any file I/O because its identity check consults only `FileName` and
`FilePattern`, omitting `FileNames`. -/
theorem executeData_rejects_list_only :
    listOnlyState.fileNames = some ["a.raw"] ∧
      (computeInternalFileName listOnlyState 0).internalFileName = some "a.raw" ∧
      executeDataWithInformation listOnlyState statOkFS = ReadResult.errorNoIdentity := by
  decide

/-- C5 (counterexample): with a non-null memory buffer (and length)
configured, the read still opens a file and reads rows from it: the update
trace on a one-voxel configuration is exactly an open of `"img.raw"`
followed by a seek and a row read, refuting "no file is opened during such
a read". -/
theorem memoryBuffer_ignored_cex :
    bufferedReadState.memoryBuffer = some 1 ∧
      bufferedReadState.memoryBufferLength = 100 ∧
      executeDataWithInformation bufferedReadState statOkFS =
        ReadResult.done
          [FileOp.openOp "img.raw" true, FileOp.seekOp 5, FileOp.readRow 2] := by
  decide

/-- C5 (amended): the memory-buffer setters store the pointer and length,
but `vtkImageReader2`'s own read path never consults them: the outcome of
`ExecuteDataWithInformation` (including its whole file-operation trace) is
unchanged by any buffer configuration.  The override is honored only by
subclass readers outside this translation unit. -/
theorem executeData_ignores_memoryBuffer (st : ReaderState) (fs : FileSystem)
    (b : Option Nat) (l : Int) :
    executeDataWithInformation (setMemoryBufferLength (setMemoryBuffer st b) l) fs =
      executeDataWithInformation st fs := by
  rw [setMemoryBuffer_eq, setMemoryBufferLength_eq]
  exact executeDataWithInformation_bufSet st fs b l
